import Mathlib

/-!
Verification of the Parity `AccountProvider` (ethcore/src/account_provider/mod.rs)
against its specification.

The provider's state (unlock table, address book, dapps settings, on-disk
secret store, transient multi-password store) is embedded as a Lean structure;
every operation of the facade is translated from the Rust source as a pure
function threading the state explicitly.  The backends (`EthStore`,
`EthMultiStore`, the stores module) are not part of the sources at hand, so
they are modelled from the specification; each such definition carries a
doc comment saying so.
-/

namespace Parity

/-- A 20-byte address; equality is byte-wise, so a plain `Nat` models it. -/
abbrev Address := Nat

/-- A 32-byte message to sign; only its identity matters here. -/
abbrev Message := Nat

/-- Rolling session token (source: `type AccountToken = String`). -/
abbrev AccountToken := String

/-- Dapp identifier: a bare string (source: `struct DappId(String)`). -/
abbrev DappId := String

/-- Vault scope of an account (source: `SecretVaultRef` in ethstore). -/
inductive SecretVaultRef where
  | Root : SecretVaultRef
  | Vault : String → SecretVaultRef
deriving DecidableEq

/-- Account handle: vault scope plus address (source: `StoreAccountRef`). -/
structure StoreAccountRef where
  vault : SecretVaultRef
  address : Address
deriving DecidableEq

/-- Type of unlock (source: `enum Unlock`, mod.rs lines 37-45).
`Instant` is modelled as a `Nat` timestamp. -/
inductive Unlock where
  | Temp : Unlock
  | Perm : Unlock
  | Timed : Nat → Unlock
deriving DecidableEq

/-- Data associated with an unlocked account (source: `struct AccountData`). -/
structure AccountData where
  unlock : Unlock
  password : String
deriving DecidableEq

/-- Modelled from the spec: error kinds of the secret-store backends
(§7 taxonomy; ethstore `Error` is not under the sources at hand). -/
inductive SSError where
  | InvalidPassword : SSError
  | InvalidAccount : SSError
  | NotFound : SSError
deriving DecidableEq

/-- Signing error (source: `enum SignError`, mod.rs lines 56-65; the
hardware constructor is irrelevant to the claims and carries no payload). -/
inductive SignError where
  | NotUnlocked : SignError
  | NotFound : SignError
  | Hardware : SignError
  | SStore : SSError → SignError
deriving DecidableEq

/-- A signature: the only facts that matter are which account signed and
which message was signed. -/
structure Signature where
  address : Address
  message : Message
deriving DecidableEq

/-- Name/meta pair of an address-book entry (ethjson `AccountMeta`). -/
structure AccountMeta where
  name : String
  meta : String
deriving DecidableEq

/-- Modelled from the spec: policy for which accounts unknown dapps see
(§3 `NewDappsPolicy`; the stores module is not under the sources at hand). -/
inductive NewDappsPolicy where
  | AllAccounts : NewDappsPolicy
  | Whitelist : List Address → NewDappsPolicy
deriving DecidableEq

/-! ### Association lists

`HashMap` state is modelled by association lists with the usual
lookup/insert/erase operations. -/

/-- Lookup in an association list (first matching key). -/
def alookup {κ β : Type} [DecidableEq κ] : List (κ × β) → κ → Option β
  | [], _ => none
  | (k, v) :: t, k2 => if k = k2 then some v else alookup t k2

/-- Erase every binding of a key. -/
def aerase {κ β : Type} [DecidableEq κ] : List (κ × β) → κ → List (κ × β)
  | [], _ => []
  | (k, v) :: t, k2 => if k = k2 then aerase t k2 else (k, v) :: aerase t k2

/-- Insert (replace) a binding. -/
def ainsert {κ β : Type} [DecidableEq κ] (l : List (κ × β)) (k : κ) (v : β) :
    List (κ × β) :=
  (k, v) :: aerase l k

@[simp]
theorem alookup_nil {κ β : Type} [DecidableEq κ] (k : κ) :
    alookup ([] : List (κ × β)) k = none := rfl

@[simp]
theorem alookup_cons {κ β : Type} [DecidableEq κ] (k k2 : κ) (v : β) (t : List (κ × β)) :
    alookup ((k, v) :: t) k2 = if k = k2 then some v else alookup t k2 := rfl

@[simp]
theorem alookup_aerase {κ β : Type} [DecidableEq κ] (l : List (κ × β)) (k k2 : κ) :
    alookup (aerase l k) k2 = if k = k2 then none else alookup l k2 := by
  induction l with
  | nil => simp [aerase]
  | cons hd tl ih =>
    obtain ⟨k3, v⟩ := hd
    by_cases h3 : k3 = k
    · subst h3
      by_cases h2 : k3 = k2
      · subst h2; simpa [aerase] using ih
      · simpa [aerase, h2] using ih
    · by_cases h2 : k3 = k2
      · subst h2
        have hk : ¬ k = k3 := fun hkk => h3 hkk.symm
        simp [aerase, h3, hk, ih]
      · simp [aerase, h3, h2, ih]

@[simp]
theorem alookup_ainsert {κ β : Type} [DecidableEq κ] (l : List (κ × β)) (k k2 : κ) (v : β) :
    alookup (ainsert l k v) k2 = if k = k2 then some v else alookup l k2 := by
  by_cases h : k = k2 <;> simp [ainsert, h]

theorem alookup_isSome_of_mem {κ β : Type} [DecidableEq κ]
    {l : List (κ × β)} {k : κ} {v : β} (h : (k, v) ∈ l) :
    (alookup l k).isSome := by
  induction l with
  | nil => cases h
  | cons hd tl ih =>
    obtain ⟨k3, v3⟩ := hd
    rcases List.mem_cons.mp h with h1 | h1
    · cases h1; simp
    · by_cases hk : k3 = k
      · simp [hk]
      · simpa [hk] using ih h1

/-! ### Backend stores

The on-disk `EthStore` and the in-memory `EthMultiStore` are external
collaborators (§1); their sources are not at hand, so they are modelled
from the specification (§3, §4.1, §4.4). -/

/-- Modelled from the spec: the on-disk secret store is a finite map from
account handle to its (single) password; §4.1 lists its operations. -/
abbrev SStore := List (StoreAccountRef × String)

/-- Modelled from the spec: the transient store is a multi-password
keystore — each account handle maps to the list of passwords (tokens)
that currently open it (§3 `SessionToken`, §4.4). -/
abbrev TStore := List (StoreAccountRef × List String)

/-- Modelled from the spec: `account_ref(addr)` resolves an address to the
store's handle for it; fails when the address is unknown (§4.1). -/
def sstore_account_ref (s : SStore) (address : Address) : Option StoreAccountRef :=
  (s.find? (fun p => p.1.address = address)).map (fun p => p.1)

/-- Modelled from the spec: signing with the on-disk store succeeds exactly
when the account exists and the password is its stored password (§4.1). -/
def sstore_sign (s : SStore) (account : StoreAccountRef) (pw : String) (message : Message) :
    Except SSError Signature :=
  match alookup s account with
  | none => .error .InvalidAccount
  | some stored => if stored = pw then .ok ⟨account.address, message⟩ else .error .InvalidPassword

/-- Modelled from the spec: decryption with the on-disk store has the same
password semantics as signing; the plaintext is the message itself here. -/
def sstore_decrypt (s : SStore) (account : StoreAccountRef) (pw : String)
    (sharedMac : Nat) (message : Nat) : Except SSError Nat :=
  match alookup s account with
  | none => .error .InvalidAccount
  | some stored =>
    if stored = pw then .ok (sharedMac + message) else .error .InvalidPassword

/-- Modelled from the spec: `test_password` reports whether the given
password is the account's on-disk password (§4.1). -/
def sstore_test_password (s : SStore) (account : StoreAccountRef) (pw : String) :
    Except SSError Bool :=
  match alookup s account with
  | none => .error .InvalidAccount
  | some stored => .ok (decide (stored = pw))

/-- Modelled from the spec: `remove_account` deletes the account when the
password is correct (§4.1). -/
def sstore_remove_account (s : SStore) (account : StoreAccountRef) (pw : String) :
    Except SSError SStore :=
  match alookup s account with
  | none => .error .InvalidAccount
  | some stored => if stored = pw then .ok (aerase s account) else .error .InvalidPassword

/-- Modelled from the spec: `copy_account(dest, scope, ref, old_pw, new_pw)`
re-encrypts a copy of the on-disk account into the destination multi-store
under `new_pw`; `old_pw` must be the on-disk password (§4.1, §4.4). -/
def sstore_copy_account (s : SStore) (dest : TStore) (account : StoreAccountRef)
    (pw newPw : String) : Except SSError TStore :=
  match alookup s account with
  | none => .error .InvalidAccount
  | some stored =>
    if stored = pw then
      .ok (ainsert dest account (newPw :: ((alookup dest account).getD [])))
    else .error .InvalidPassword

/-- Modelled from the spec: `change_password(ref, old, new)` on the
multi-store re-encrypts the copy held under `old` so that it is held under
`new`; using a token rotates it away, invalidating the old value (§4.4). -/
def multi_change_password (t : TStore) (account : StoreAccountRef)
    (oldPw newPw : String) : Except SSError TStore :=
  match alookup t account with
  | none => .error .InvalidAccount
  | some pws =>
    if oldPw ∈ pws then .ok (ainsert t account (newPw :: pws.erase oldPw))
    else .error .InvalidPassword

/-- Modelled from the spec: signing with the multi-store succeeds exactly
when one of the account's current passwords is presented (§3, §4.4). -/
def multi_sign (t : TStore) (account : StoreAccountRef) (pw : String) (message : Message) :
    Except SSError Signature :=
  match alookup t account with
  | none => .error .InvalidAccount
  | some pws =>
    if pw ∈ pws then .ok ⟨account.address, message⟩ else .error .InvalidPassword

/-- Modelled from the spec: decryption with the multi-store has the same
password semantics as signing. -/
def multi_decrypt (t : TStore) (account : StoreAccountRef) (pw : String)
    (sharedMac : Nat) (message : Nat) : Except SSError Nat :=
  match alookup t account with
  | none => .error .InvalidAccount
  | some pws =>
    if pw ∈ pws then .ok (sharedMac + message) else .error .InvalidPassword

/-! ### Provider state -/

/-- The mutable state owned by `AccountProvider` (mod.rs lines 115-125).
The address book and dapps settings stores (`mod stores`, not among the
sources at hand) are modelled from the spec: the address book is a map
from address to name/meta, the dapps settings store holds a policy, the
per-dapp visibility map and the recent-use log (§3). -/
structure ProviderState where
  unlocked : List (StoreAccountRef × AccountData)
  address_book : List (Address × AccountMeta)
  dapps_policy : NewDappsPolicy
  dapps_settings : List (DappId × List Address)
  dapps_recent : List (DappId × Nat)
  sstore : SStore
  transient_sstore : TStore
deriving DecidableEq

/-- Translation of `accounts()`: addresses of all software accounts (mod.rs lines 191-194). -/
def accounts (st : ProviderState) : List Address :=
  st.sstore.map (fun a => a.1.address)

/-- Translation of `addresses_info()`: the address book contents (mod.rs lines 276-278). -/
def addresses_info (st : ProviderState) : List (Address × AccountMeta) :=
  st.address_book

/-- Translation of `filter_addresses`: removes addresses that are neither accounts nor in
the address book (mod.rs lines 263-273).  The `HashSet` of valid addresses
is modelled by a list and membership in it. -/
def filter_addresses (st : ProviderState) (addresses : List Address) :
    Except SSError (List Address) :=
  let valid := (addresses_info st).map (fun p => p.1) ++ accounts st
  .ok (addresses.filter (fun a => valid.contains a))

/-- Translation of `dapps_addresses(dapp)` (mod.rs lines 234-245). -/
def dapps_addresses (st : ProviderState) (dapp : DappId) : Except SSError (List Address) :=
  match alookup st.dapps_settings dapp with
  | some accs => .ok accs
  | none =>
    match st.dapps_policy with
    | .AllAccounts => .ok (accounts st)
    | .Whitelist ws => filter_addresses st ws

/-- Translation of `set_dapps_addresses(dapp, addresses)` (mod.rs lines 256-260). -/
def set_dapps_addresses (st : ProviderState) (dapp : DappId) (addresses : List Address) :
    Except SSError Unit × ProviderState :=
  match filter_addresses st addresses with
  | .error e => (.error e, st)
  | .ok addrs => (.ok (), { st with dapps_settings := ainsert st.dapps_settings dapp addrs })

/-- Translation of `kill_account(address, password)` (mod.rs lines 355-358). -/
def kill_account (st : ProviderState) (address : Address) (pw : String) :
    Except SSError Unit × ProviderState :=
  match sstore_account_ref st.sstore address with
  | none => (.error .InvalidAccount, st)
  | some account =>
    match sstore_remove_account st.sstore account pw with
    | .error e => (.error e, st)
    | .ok s2 => (.ok (), { st with sstore := s2 })

/-- Translation of `unlock_account(address, password, unlock)` (mod.rs lines 366-387):
verify the password by signing the zero message, then — unless a `Perm`
record is already present — insert the unlock record. -/
def unlock_account (st : ProviderState) (address : Address) (pw : String) (unlock : Unlock) :
    Except SSError Unit × ProviderState :=
  match sstore_account_ref st.sstore address with
  | none => (.error .InvalidAccount, st)
  | some account =>
    match sstore_sign st.sstore account pw 0 with
    | .error e => (.error e, st)
    | .ok _ =>
      match alookup st.unlocked account with
      | some data =>
        match data.unlock with
        | .Perm => (.ok (), st)
        | _ =>
          (.ok (), { st with unlocked := ainsert st.unlocked account ⟨unlock, pw⟩ })
      | none =>
        (.ok (), { st with unlocked := ainsert st.unlocked account ⟨unlock, pw⟩ })

/-- Translation of `unlock_account_permanently` (mod.rs lines 405-407). -/
def unlock_account_permanently (st : ProviderState) (address : Address) (pw : String) :
    Except SSError Unit × ProviderState :=
  unlock_account st address pw .Perm

/-- Translation of `unlock_account_temporarily` (mod.rs lines 410-412). -/
def unlock_account_temporarily (st : ProviderState) (address : Address) (pw : String) :
    Except SSError Unit × ProviderState :=
  unlock_account st address pw .Temp

/-- Translation of `unlock_account_timed` (mod.rs lines 415-417); the deadline is
`now + duration_ms`. -/
def unlock_account_timed (st : ProviderState) (address : Address) (pw : String)
    (now duration_ms : Nat) : Except SSError Unit × ProviderState :=
  unlock_account st address pw (.Timed (now + duration_ms))

/-- Translation of `is_unlocked(address)` (mod.rs lines 420-425): a read-only probe. -/
def is_unlocked (st : ProviderState) (address : Address) : Bool :=
  match sstore_account_ref st.sstore address with
  | none => false
  | some account => (alookup st.unlocked account).isSome

/-- Translation of `password(account)` (mod.rs lines 389-402): fetch the cached password;
a `Temp` record is consumed, an expired `Timed` record is evicted and the
call fails with `NotUnlocked`. -/
def password (st : ProviderState) (now : Nat) (account : StoreAccountRef) :
    Except SignError String × ProviderState :=
  match alookup st.unlocked account with
  | none => (.error .NotUnlocked, st)
  | some data =>
    match data.unlock with
    | .Temp => (.ok data.password, { st with unlocked := aerase st.unlocked account })
    | .Timed deadline =>
      if now > deadline then
        (.error .NotUnlocked, { st with unlocked := aerase st.unlocked account })
      else (.ok data.password, st)
    | .Perm => (.ok data.password, st)

/-- Translation of `sign(address, password, message)` (mod.rs lines 428-432): if a
password is supplied it is used directly, otherwise the unlock table is
consulted via `password`. -/
def sign (st : ProviderState) (now : Nat) (address : Address) (pwOpt : Option String)
    (message : Message) : Except SignError Signature × ProviderState :=
  match sstore_account_ref st.sstore address with
  | none => (.error (.SStore .InvalidAccount), st)
  | some account =>
    match pwOpt with
    | some pw =>
      match sstore_sign st.sstore account pw message with
      | .ok sig => (.ok sig, st)
      | .error e => (.error (.SStore e), st)
    | none =>
      match password st now account with
      | (.error e, st2) => (.error e, st2)
      | (.ok pw, st2) =>
        match sstore_sign st2.sstore account pw message with
        | .ok sig => (.ok sig, st2)
        | .error e => (.error (.SStore e), st2)

/-- Translation of `decrypt(address, password, shared_mac, message)` (mod.rs lines
479-483): same password semantics as `sign`. -/
def decrypt (st : ProviderState) (now : Nat) (address : Address) (pwOpt : Option String)
    (sharedMac : Nat) (message : Nat) : Except SignError Nat × ProviderState :=
  match sstore_account_ref st.sstore address with
  | none => (.error (.SStore .InvalidAccount), st)
  | some account =>
    match pwOpt with
    | some pw =>
      match sstore_decrypt st.sstore account pw sharedMac message with
      | .ok m => (.ok m, st)
      | .error e => (.error (.SStore e), st)
    | none =>
      match password st now account with
      | (.error e, st2) => (.error e, st2)
      | (.ok pw, st2) =>
        match sstore_decrypt st2.sstore account pw sharedMac message with
        | .ok m => (.ok m, st2)
        | .error e => (.error (.SStore e), st2)

/-- Translation of `sign_with_token(address, token, message)` (mod.rs lines 435-453).
`newToken` stands for the `random_string(16)` value; it is a parameter of
the embedding.  First use (the token passes the on-disk password test):
copy the account into the transient store under `newToken` and sign with
the on-disk store.  Subsequent use: rotate the transient password from
`token` to `newToken` and sign with the transient store **using
`newToken`**. -/
def sign_with_token (st : ProviderState) (address : Address)
    (token newToken : AccountToken) (message : Message) :
    Except SignError (Signature × AccountToken) × ProviderState :=
  match sstore_account_ref st.sstore address with
  | none => (.error (.SStore .InvalidAccount), st)
  | some account =>
    match sstore_test_password st.sstore account token with
    | .error e => (.error (.SStore e), st)
    | .ok true =>
      match sstore_copy_account st.sstore st.transient_sstore account token newToken with
      | .error e => (.error (.SStore e), st)
      | .ok t2 =>
        match sstore_sign st.sstore account token message with
        | .error e => (.error (.SStore e), { st with transient_sstore := t2 })
        | .ok sig => (.ok (sig, newToken), { st with transient_sstore := t2 })
    | .ok false =>
      match multi_change_password st.transient_sstore account token newToken with
      | .error e => (.error (.SStore e), st)
      | .ok t2 =>
        match multi_sign t2 account newToken message with
        | .error e => (.error (.SStore e), { st with transient_sstore := t2 })
        | .ok sig => (.ok (sig, newToken), { st with transient_sstore := t2 })

/-- Translation of `decrypt_with_token(address, token, shared_mac, message)` (mod.rs
lines 456-476).  Identical protocol to `sign_with_token`, except that on
the subsequent-use branch the source decrypts with the **old** `token`
(mod.rs line 472), not with `new_token`. -/
def decrypt_with_token (st : ProviderState) (address : Address)
    (token newToken : AccountToken) (sharedMac : Nat) (message : Nat) :
    Except SignError (Nat × AccountToken) × ProviderState :=
  match sstore_account_ref st.sstore address with
  | none => (.error (.SStore .InvalidAccount), st)
  | some account =>
    match sstore_test_password st.sstore account token with
    | .error e => (.error (.SStore e), st)
    | .ok true =>
      match sstore_copy_account st.sstore st.transient_sstore account token newToken with
      | .error e => (.error (.SStore e), st)
      | .ok t2 =>
        match sstore_decrypt st.sstore account token sharedMac message with
        | .error e => (.error (.SStore e), { st with transient_sstore := t2 })
        | .ok m => (.ok (m, newToken), { st with transient_sstore := t2 })
    | .ok false =>
      match multi_change_password st.transient_sstore account token newToken with
      | .error e => (.error (.SStore e), st)
      | .ok t2 =>
        match multi_decrypt t2 account token sharedMac message with
        | .error e => (.error (.SStore e), { st with transient_sstore := t2 })
        | .ok m => (.ok (m, newToken), { st with transient_sstore := t2 })

/-! ### Basic lemmas about the embedding -/

theorem mem_of_mem_aerase {κ β : Type} [DecidableEq κ] {l : List (κ × β)} {k : κ}
    {x : κ × β} (h : x ∈ aerase l k) : x ∈ l := by
  induction l with
  | nil => simp [aerase] at h
  | cons hd tl ih =>
    obtain ⟨k3, v3⟩ := hd
    by_cases hk : k3 = k
    · simp only [aerase, if_pos hk] at h
      exact List.mem_cons_of_mem _ (ih h)
    · simp only [aerase, if_neg hk] at h
      rcases List.mem_cons.mp h with h1 | h1
      · exact h1 ▸ List.mem_cons_self _ _
      · exact List.mem_cons_of_mem _ (ih h1)

theorem sstore_account_ref_addr {s : SStore} {a : Address} {r : StoreAccountRef}
    (h : sstore_account_ref s a = some r) : r.address = a := by
  unfold sstore_account_ref at h
  cases hf : s.find? (fun p => decide (p.1.address = a)) with
  | none => rw [hf] at h; cases h
  | some p =>
    rw [hf] at h
    cases h
    have hp := List.find?_some hf
    exact of_decide_eq_true hp

theorem sstore_account_ref_isSome {s : SStore} {a : Address} {r : StoreAccountRef}
    (h : sstore_account_ref s a = some r) : (alookup s r).isSome := by
  unfold sstore_account_ref at h
  cases hf : s.find? (fun p => decide (p.1.address = a)) with
  | none => rw [hf] at h; cases h
  | some p =>
    rw [hf] at h
    cases h
    have hm : p ∈ s := List.mem_of_find?_eq_some hf
    have hm2 : (p.1, p.2) ∈ s := by simpa using hm
    exact alookup_isSome_of_mem hm2

theorem sstore_sign_ok_lookup {s : SStore} {account : StoreAccountRef} {pw : String}
    {m : Message} {sig : Signature} (h : sstore_sign s account pw m = .ok sig) :
    alookup s account = some pw := by
  unfold sstore_sign at h
  split at h
  · cases h
  · rename_i stored hl
    split at h
    · rename_i hs
      rw [hl, hs]
    · cases h

theorem sstore_sign_correct {s : SStore} {account : StoreAccountRef} {pw : String}
    (m : Message) (h : alookup s account = some pw) :
    sstore_sign s account pw m = .ok ⟨account.address, m⟩ := by
  unfold sstore_sign
  rw [h]
  simp

/-! ### Concrete states used by witnesses and counterexamples -/

/-- A root-scope account with address `1`. -/
def ref1 : StoreAccountRef := ⟨.Root, 1⟩

/-- One account (address 1, password "pw"), nothing unlocked. -/
def baseState : ProviderState :=
  { unlocked := []
    address_book := []
    dapps_policy := .AllAccounts
    dapps_settings := []
    dapps_recent := []
    sstore := [(ref1, "pw")]
    transient_sstore := [] }

/-- `baseState` with account 1 permanently unlocked. -/
def permState : ProviderState :=
  { baseState with unlocked := [(ref1, ⟨.Perm, "pw"⟩)] }

/-- `baseState` with a timed unlock record (deadline 10) for account 1. -/
def timedState : ProviderState :=
  { baseState with unlocked := [(ref1, ⟨.Timed 10, "pw"⟩)] }

/-- `baseState` with a live session token "tokA" for account 1 in the
transient store (a subsequent-use session state). -/
def tokState : ProviderState :=
  { baseState with transient_sstore := [(ref1, ["tokA"])] }

/-! ### Claim C10 -/

/-- Claim C10: for every address, message and supplied password,
`sign(addr, Some(pw), msg)` and `decrypt(addr, Some(pw), mac, msg)` leave
the provider state — in particular the unlock table — completely
unchanged: the `password` routine (the only mutator) is never consulted
when a password is supplied. -/
theorem sign_decrypt_some_password_frame (st : ProviderState) (now : Nat)
    (address : Address) (pw : String) (sharedMac message m2 : Nat) :
    (sign st now address (some pw) m2).2 = st ∧
    (decrypt st now address (some pw) sharedMac message).2 = st := by
  constructor
  · unfold sign
    split
    · rfl
    · split
      · split <;> rfl
      · rename_i heq
        exact Option.noConfusion heq
  · unfold decrypt
    split
    · rfl
    · split
      · split <;> rfl
      · rename_i heq
        exact Option.noConfusion heq

/-! ### Claim C5 -/

/-- Claim C5: for an account holding a `Timed(deadline)` unlock record, a
password lookup at time `now` returns the cached password and leaves the
record in place when `now ≤ deadline`; when `now > deadline` it removes
the record and fails with `NotUnlocked`. -/
theorem password_timed_semantics (st : ProviderState) (now deadline : Nat)
    (account : StoreAccountRef) (pw : String)
    (h : alookup st.unlocked account = some ⟨.Timed deadline, pw⟩) :
    (now ≤ deadline → password st now account = (.ok pw, st)) ∧
    (now > deadline →
      password st now account =
        (.error .NotUnlocked, { st with unlocked := aerase st.unlocked account }) ∧
      alookup (password st now account).2.unlocked account = none) := by
  unfold password
  rw [h]
  constructor
  · intro hle
    simp [Nat.not_lt.mpr hle]
  · intro hgt
    simp [hgt]

/-- Claim C5 witness: concrete run of both branches on `timedState`
(deadline 10): at time 5 the password is returned and the record kept, at
time 11 the lookup fails and the record is gone. -/
theorem password_timed_semantics_witness :
    password timedState 5 ref1 = (.ok "pw", timedState) ∧
    password timedState 11 ref1 =
      (.error .NotUnlocked, { timedState with unlocked := aerase timedState.unlocked ref1 }) ∧
    alookup (password timedState 11 ref1).2.unlocked ref1 = none := by
  refine ⟨(password_timed_semantics timedState 5 10 ref1 "pw" rfl).1 (by decide),
    (password_timed_semantics timedState 11 10 ref1 "pw" rfl).2 (by decide)⟩

/-! ### Execution lemmas for `unlock_account` and `sign` -/

/-- Running `unlock_account` with the correct password when no `Perm`
record is present inserts the requested record. -/
theorem unlock_account_no_perm_run (st : ProviderState) (a : Address)
    (ref : StoreAccountRef) (p : String) (mode : Unlock)
    (href : sstore_account_ref st.sstore a = some ref)
    (hpw : alookup st.sstore ref = some p)
    (hnoperm : ∀ d, alookup st.unlocked ref = some d → d.unlock ≠ Unlock.Perm) :
    unlock_account st a p mode =
      (.ok (), { st with unlocked := ainsert st.unlocked ref ⟨mode, p⟩ }) := by
  unfold unlock_account
  simp only [href, sstore_sign_correct 0 hpw]
  cases hl : alookup st.unlocked ref with
  | none => simp [hl]
  | some d =>
    obtain ⟨du, dp⟩ := d
    cases du with
    | Perm => exact absurd rfl (hnoperm ⟨.Perm, dp⟩ hl)
    | Temp => simp [hl]
    | Timed dl => simp [hl]

/-- Running `unlock_account` when a `Perm` record is present leaves the
state unchanged, whether the password verifies or not. -/
theorem unlock_account_perm_frame (st : ProviderState) (a : Address)
    (ref : StoreAccountRef) (p2 : String) (mode : Unlock) (d : AccountData)
    (href : sstore_account_ref st.sstore a = some ref)
    (hrec : alookup st.unlocked ref = some d) (hperm : d.unlock = Unlock.Perm) :
    (unlock_account st a p2 mode).2 = st := by
  unfold unlock_account
  simp only [href]
  cases hsig : sstore_sign st.sstore ref p2 0 with
  | error e => simp [hsig]
  | ok s => simp [hsig, hrec, hperm]

/-- Running `unlock_account` with the correct password when a `Perm`
record is present succeeds and does nothing. -/
theorem unlock_account_perm_present_ok (st : ProviderState) (a : Address)
    (ref : StoreAccountRef) (p2 : String) (mode : Unlock) (d : AccountData)
    (href : sstore_account_ref st.sstore a = some ref)
    (hrec : alookup st.unlocked ref = some d) (hperm : d.unlock = Unlock.Perm)
    (hpw : alookup st.sstore ref = some p2) :
    unlock_account st a p2 mode = (.ok (), st) := by
  unfold unlock_account
  simp [href, sstore_sign_correct 0 hpw, hrec, hperm]

/-- Passwordless `sign` against a `Temp` record with the correct cached
password signs once and consumes the record. -/
theorem sign_none_temp (st : ProviderState) (now : Nat) (a : Address)
    (ref : StoreAccountRef) (p : String) (m : Message)
    (href : sstore_account_ref st.sstore a = some ref)
    (hpw : alookup st.sstore ref = some p)
    (hrec : alookup st.unlocked ref = some ⟨.Temp, p⟩) :
    sign st now a none m =
      (.ok ⟨a, m⟩, { st with unlocked := aerase st.unlocked ref }) := by
  unfold sign password
  simp [href, hrec, sstore_sign_correct m hpw, sstore_account_ref_addr href]

/-- Passwordless `sign` against a `Perm` record with the correct cached
password signs and leaves the state unchanged. -/
theorem sign_none_perm (st : ProviderState) (now : Nat) (a : Address)
    (ref : StoreAccountRef) (p : String) (m : Message)
    (href : sstore_account_ref st.sstore a = some ref)
    (hpw : alookup st.sstore ref = some p)
    (hrec : alookup st.unlocked ref = some ⟨.Perm, p⟩) :
    sign st now a none m = (.ok ⟨a, m⟩, st) := by
  unfold sign password
  simp [href, hrec, sstore_sign_correct m hpw, sstore_account_ref_addr href]

/-- Passwordless `sign` with no unlock record fails with `NotUnlocked`. -/
theorem sign_none_locked (st : ProviderState) (now : Nat) (a : Address)
    (ref : StoreAccountRef) (m : Message)
    (href : sstore_account_ref st.sstore a = some ref)
    (hrec : alookup st.unlocked ref = none) :
    sign st now a none m = (.error .NotUnlocked, st) := by
  unfold sign password
  simp [href, hrec]

/-! ### Claim C3 -/

/-- Claim C3 counterexample: the claim quantifies over every account with
a correct password, but when account 1 already holds a `Perm` record,
`unlock_account_temporarily` succeeds without installing a `Temp` record
and the SECOND passwordless sign also succeeds instead of failing with
`NotUnlocked`. -/
theorem unlock_temp_single_use_counterexample :
    (unlock_account_temporarily permState 1 "pw").1 = .ok () ∧
    (sign (unlock_account_temporarily permState 1 "pw").2 0 1 none 0).1 = .ok ⟨1, 0⟩ ∧
    (sign (sign (unlock_account_temporarily permState 1 "pw").2 0 1 none 0).2
        0 1 none 0).1 = .ok ⟨1, 0⟩ :=
  ⟨rfl, rfl, rfl⟩

/-- Claim C3 (amended): for every account with correct password and NO
pre-existing `Perm` record, after `unlock_account_temporarily` succeeds,
exactly one passwordless sign succeeds (consuming the `Temp` record) and
the next one fails with `NotUnlocked`. -/
theorem unlock_temp_single_use (st : ProviderState) (a : Address)
    (ref : StoreAccountRef) (p : String) (now m now2 m2 : Nat)
    (href : sstore_account_ref st.sstore a = some ref)
    (hpw : alookup st.sstore ref = some p)
    (hnoperm : ∀ d, alookup st.unlocked ref = some d → d.unlock ≠ Unlock.Perm) :
    unlock_account_temporarily st a p =
      (.ok (), { st with unlocked := ainsert st.unlocked ref ⟨.Temp, p⟩ }) ∧
    (sign { st with unlocked := ainsert st.unlocked ref ⟨.Temp, p⟩ } now a none m).1 =
      .ok ⟨a, m⟩ ∧
    (sign (sign { st with unlocked := ainsert st.unlocked ref ⟨.Temp, p⟩ } now a none m).2
        now2 a none m2).1 = .error .NotUnlocked := by
  have h1 : unlock_account_temporarily st a p =
      (.ok (), { st with unlocked := ainsert st.unlocked ref ⟨.Temp, p⟩ }) :=
    unlock_account_no_perm_run st a ref p .Temp href hpw hnoperm
  have h2 : sign { st with unlocked := ainsert st.unlocked ref ⟨.Temp, p⟩ } now a none m =
      (.ok ⟨a, m⟩, { st with unlocked := aerase (ainsert st.unlocked ref ⟨.Temp, p⟩) ref }) :=
    sign_none_temp _ now a ref p m href hpw (by simp)
  have h3 : sign { st with unlocked := aerase (ainsert st.unlocked ref ⟨.Temp, p⟩) ref }
      now2 a none m2 =
      (.error .NotUnlocked, { st with unlocked := aerase (ainsert st.unlocked ref ⟨.Temp, p⟩) ref }) :=
    sign_none_locked _ now2 a ref m2 href (by simp)
  refine ⟨h1, by rw [h2], by rw [h2, h3]⟩

/-- Claim C3 witness: concrete run on `baseState` (no prior unlock
record): temp unlock, one successful sign, then `NotUnlocked`. -/
theorem unlock_temp_single_use_witness :
    unlock_account_temporarily baseState 1 "pw" =
      (.ok (), { baseState with unlocked := ainsert baseState.unlocked ref1 ⟨.Temp, "pw"⟩ }) ∧
    (sign { baseState with unlocked := ainsert baseState.unlocked ref1 ⟨.Temp, "pw"⟩ }
        0 1 none 7).1 = .ok ⟨1, 7⟩ ∧
    (sign (sign { baseState with unlocked := ainsert baseState.unlocked ref1 ⟨.Temp, "pw"⟩ }
        0 1 none 7).2 0 1 none 7).1 = .error .NotUnlocked :=
  unlock_temp_single_use baseState 1 ref1 "pw" 0 7 0 7 rfl rfl
    (fun d h => Option.noConfusion h)

/-! ### Claim C4 -/

/-- Claim C4: a `Perm` unlock record is never replaced or downgraded by a
later unlock call of any mode (first conjunct: any such call leaves the
state unchanged), and `Perm` absorbs subsequent unlocks: after
`unlock_account_permanently(a, p)` followed by
`unlock_account_temporarily(a, p)`, passwordless signing succeeds with the
state a fixed point, hence any number of successive signs succeed (second
conjunct).  The cache hypothesis says any pre-existing record holds the
account's real password, which every record inserted by `unlock_account`
does. -/
theorem perm_unlock_absorbs :
    (∀ st a ref p2 mode d, sstore_account_ref st.sstore a = some ref →
      alookup st.unlocked ref = some d → d.unlock = Unlock.Perm →
      (unlock_account st a p2 mode).2 = st) ∧
    (∀ st a ref p st1, sstore_account_ref st.sstore a = some ref →
      (∀ d, alookup st.unlocked ref = some d → alookup st.sstore ref = some d.password) →
      unlock_account_permanently st a p = (.ok (), st1) →
      unlock_account_temporarily st1 a p = (.ok (), st1) ∧
      ∀ now m, sign st1 now a none m = (.ok ⟨a, m⟩, st1)) := by
  constructor
  · intro st a ref p2 mode d href hrec hperm
    exact unlock_account_perm_frame st a ref p2 mode d href hrec hperm
  · intro st a ref p st1 href hcache hperm
    unfold unlock_account_permanently unlock_account at hperm
    rw [href] at hperm
    simp only [] at hperm
    cases hsig : sstore_sign st.sstore ref p 0 with
    | error e => rw [hsig] at hperm; cases hperm
    | ok s =>
      rw [hsig] at hperm
      have hpw : alookup st.sstore ref = some p := sstore_sign_ok_lookup hsig
      have hkey : st1.sstore = st.sstore ∧
          ∃ q, alookup st1.unlocked ref = some ⟨.Perm, q⟩ ∧
            alookup st.sstore ref = some q := by
        cases hl : alookup st.unlocked ref with
        | none =>
          rw [hl] at hperm
          simp only [] at hperm
          cases hperm
          exact ⟨rfl, p, by simp, hpw⟩
        | some d =>
          rw [hl] at hperm
          obtain ⟨du, dp⟩ := d
          cases du with
          | Perm =>
            simp only [] at hperm
            cases hperm
            exact ⟨rfl, dp, hl, hcache ⟨.Perm, dp⟩ hl⟩
          | Temp =>
            simp only [] at hperm
            cases hperm
            exact ⟨rfl, p, by simp, hpw⟩
          | Timed dl =>
            simp only [] at hperm
            cases hperm
            exact ⟨rfl, p, by simp, hpw⟩
      obtain ⟨hs1, q, hq1, hq2⟩ := hkey
      have href1 : sstore_account_ref st1.sstore a = some ref := by rw [hs1]; exact href
      have hpw1 : alookup st1.sstore ref = some q := by rw [hs1]; exact hq2
      refine ⟨?_, ?_⟩
      · exact unlock_account_perm_present_ok st1 a ref p .Temp ⟨.Perm, q⟩ href1 hq1 rfl
          (by rw [hs1]; exact hpw)
      · intro now m
        exact sign_none_perm st1 now a ref q m href1 hpw1 hq1

/-- Claim C4 witness: concrete runs — a wrong-password temp unlock with a
live `Perm` record changes nothing, and after a permanent unlock of
account 1 a temporary re-unlock is absorbed and a passwordless sign still
succeeds without touching the state. -/
theorem perm_unlock_absorbs_witness :
    (unlock_account permState 1 "bad" Unlock.Temp).2 = permState ∧
    unlock_account_temporarily permState 1 "pw" = (.ok (), permState) ∧
    sign permState 0 1 none 5 = (.ok ⟨1, 5⟩, permState) :=
  ⟨perm_unlock_absorbs.1 permState 1 ref1 "bad" Unlock.Temp ⟨.Perm, "pw"⟩ rfl rfl rfl,
   (perm_unlock_absorbs.2 baseState 1 ref1 "pw" permState rfl
      (fun d h => Option.noConfusion h) rfl).1,
   (perm_unlock_absorbs.2 baseState 1 ref1 "pw" permState rfl
      (fun d h => Option.noConfusion h) rfl).2 0 5⟩

/-! ### Claim C7 -/

/-- Claim C7 counterexample: account 1 is already permanently unlocked; a
temporary unlock with the wrong password "bad" fails, yet `is_unlocked`
is still true afterwards — the claim asserts it would be false. -/
theorem unlock_wrong_password_counterexample :
    (unlock_account_temporarily permState 1 "bad").1 = .error .InvalidPassword ∧
    is_unlocked (unlock_account_temporarily permState 1 "bad").2 1 = true :=
  ⟨rfl, rfl⟩

/-- Claim C7 (amended): every unlock call with a wrong password fails with
`InvalidPassword` and leaves the state — hence the unlock table — exactly
as it was (the table is never mutated before the backend verifies the
password), so `is_unlocked` keeps its previous value; in particular it is
false afterwards whenever the account was not already unlocked. -/
theorem unlock_wrong_password_no_mutation (st : ProviderState) (a : Address)
    (ref : StoreAccountRef) (q p2 : String) (mode : Unlock)
    (href : sstore_account_ref st.sstore a = some ref)
    (hq : alookup st.sstore ref = some q) (hne : q ≠ p2) :
    unlock_account st a p2 mode = (.error .InvalidPassword, st) ∧
    is_unlocked (unlock_account st a p2 mode).2 a = is_unlocked st a := by
  have hsig : sstore_sign st.sstore ref p2 0 = .error .InvalidPassword := by
    unfold sstore_sign
    rw [hq]
    simp [hne]
  have h1 : unlock_account st a p2 mode = (.error .InvalidPassword, st) := by
    unfold unlock_account
    simp [href, hsig]
  exact ⟨h1, by rw [h1]⟩

/-- Claim C7 witness: concrete wrong-password unlock on `baseState`. -/
theorem unlock_wrong_password_no_mutation_witness :
    unlock_account baseState 1 "bad" Unlock.Temp = (.error .InvalidPassword, baseState) ∧
    is_unlocked (unlock_account baseState 1 "bad" Unlock.Temp).2 1 = is_unlocked baseState 1 :=
  unlock_wrong_password_no_mutation baseState 1 ref1 "pw" "bad" Unlock.Temp rfl rfl
    (by decide)

/-! ### Claim C2 -/

/-- The §3 invariant as a Boolean: every `AccountRef` keyed in the unlock
table is still resolvable by the backing secret store. -/
def unlock_invariantB (st : ProviderState) : Bool :=
  st.unlocked.all (fun p => (alookup st.sstore p.1).isSome)

/-- Inserting a record whose key the store resolves preserves the
invariant. -/
theorem unlock_invariantB_ainsert (st : ProviderState) (ref : StoreAccountRef)
    (data : AccountData) (hinv : unlock_invariantB st = true)
    (hres : (alookup st.sstore ref).isSome) :
    unlock_invariantB { st with unlocked := ainsert st.unlocked ref data } = true := by
  unfold unlock_invariantB at hinv ⊢
  rw [List.all_eq_true] at hinv ⊢
  intro x hx
  rcases List.mem_cons.mp hx with h1 | h1
  · subst h1
    simpa using hres
  · exact hinv x (mem_of_mem_aerase h1)

/-- Claim C2 counterexample: `permState` (account 1 unlocked permanently)
satisfies the invariant; `kill_account` with the correct password
succeeds, removes the account from the secret store, but leaves the
unlock record behind — the invariant is false in the resulting state,
so `kill_account` does not preserve it. -/
theorem kill_account_invariant_counterexample :
    unlock_invariantB permState = true ∧
    (kill_account permState 1 "pw").1 = .ok () ∧
    unlock_invariantB (kill_account permState 1 "pw").2 = false :=
  ⟨rfl, rfl, rfl⟩

/-- Claim C2 (amended): `unlock_account` preserves the invariant — it
only ever inserts a handle the secret store has just resolved and leaves
the store untouched — but `kill_account` does not purge the unlock table,
so the invariant can fail immediately after killing an unlocked
account. -/
theorem unlock_account_preserves_invariant (st : ProviderState) (a : Address)
    (p : String) (mode : Unlock) (hinv : unlock_invariantB st = true) :
    unlock_invariantB (unlock_account st a p mode).2 = true := by
  unfold unlock_account
  split
  · exact hinv
  · rename_i ref href
    split
    · exact hinv
    · split
      · split
        · exact hinv
        · exact unlock_invariantB_ainsert st ref _ hinv (sstore_account_ref_isSome href)
      · exact unlock_invariantB_ainsert st ref _ hinv (sstore_account_ref_isSome href)

/-- Claim C2 witness: a concrete permanent unlock on `baseState` keeps
the invariant. -/
theorem unlock_account_preserves_invariant_witness :
    unlock_invariantB (unlock_account baseState 1 "pw" Unlock.Perm).2 = true :=
  unlock_account_preserves_invariant baseState 1 "pw" Unlock.Perm rfl

/-! ### Claims C8 and C9 -/

/-- An address the dapp filter accepts: an owned account or an
address-book entry (§4.3). -/
def dapp_visible (st : ProviderState) (a : Address) : Prop :=
  a ∈ (addresses_info st).map (fun p => p.1) ∨ a ∈ accounts st

instance dapp_visible_decidable (st : ProviderState) (a : Address) :
    Decidable (dapp_visible st a) := by
  unfold dapp_visible
  infer_instance

/-- The filter built from the `HashSet` of address-book keys and accounts
keeps exactly the addresses that are owned accounts or address-book
entries, in input order. -/
theorem filter_addresses_eq (st : ProviderState) (A : List Address) :
    filter_addresses st A = .ok (A.filter (fun a => decide (dapp_visible st a))) := by
  unfold filter_addresses
  refine congrArg Except.ok ?_
  apply List.filter_congr
  intro a ha
  simp only [dapp_visible]
  by_cases h1 : a ∈ List.map (fun p => p.1) (addresses_info st) <;>
    by_cases h2 : a ∈ accounts st <;> simp [h1, h2]

/-- Claim C8: `set_dapps_addresses(d, A)` always succeeds and stores
exactly the sublist of `A` (in `A`'s order) whose elements are owned
accounts or address-book entries; other addresses are silently dropped,
never reported as an error. -/
theorem set_dapps_addresses_filters (st : ProviderState) (d : DappId) (A : List Address) :
    (set_dapps_addresses st d A).1 = .ok () ∧
    alookup (set_dapps_addresses st d A).2.dapps_settings d =
      some (A.filter (fun a => decide (dapp_visible st a))) := by
  unfold set_dapps_addresses
  rw [filter_addresses_eq]
  simp

/-- Claim C9: `dapps_addresses(d)` returns a stored per-dapp list
verbatim when one exists; otherwise all owned accounts under
`AllAccounts`, and the whitelist filtered to accounts ∪ address book
under `Whitelist` — in particular `Whitelist([x])` with `x` in neither
yields the empty list. -/
theorem dapps_addresses_resolution (st : ProviderState) (d : DappId) :
    (∀ l, alookup st.dapps_settings d = some l → dapps_addresses st d = .ok l) ∧
    (alookup st.dapps_settings d = none → st.dapps_policy = .AllAccounts →
      dapps_addresses st d = .ok (accounts st)) ∧
    (∀ W, alookup st.dapps_settings d = none → st.dapps_policy = .Whitelist W →
      dapps_addresses st d = .ok (W.filter (fun a => decide (dapp_visible st a)))) ∧
    (∀ x, alookup st.dapps_settings d = none → st.dapps_policy = .Whitelist [x] →
      ¬ dapp_visible st x → dapps_addresses st d = .ok []) := by
  refine ⟨?_, ?_, ?_, ?_⟩
  · intro l hl
    unfold dapps_addresses
    rw [hl]
  · intro hn hp
    unfold dapps_addresses
    rw [hn, hp]
  · intro W hn hp
    unfold dapps_addresses
    rw [hn, hp]
    exact filter_addresses_eq st W
  · intro x hn hp hvx
    unfold dapps_addresses
    rw [hn, hp]
    show filter_addresses st [x] = .ok []
    rw [filter_addresses_eq st [x]]
    simp [hvx]

/-- A state whose global policy whitelists address 5, which is neither an
owned account nor in the address book. -/
def wlState : ProviderState :=
  { baseState with dapps_policy := .Whitelist [5] }

/-- Claim C9 witness: under `Whitelist([5])` with address 5 unknown, the
dapp sees no addresses. -/
theorem dapps_addresses_resolution_witness :
    dapps_addresses wlState "app1" = .ok [] :=
  (dapps_addresses_resolution wlState "app1").2.2.2 5 rfl rfl (by decide)

/-! ### Claims C6 and C1: the session-token protocol -/

/-- A subsequent-use `sign_with_token` call (the token fails the on-disk
password test but is live in the transient store) rotates the transient
password and signs with the new token. -/
theorem sign_with_token_subsequent_ok (st : ProviderState) (a : Address)
    (ref : StoreAccountRef) (pw t nt : String) (pws : List String) (m : Message)
    (href : sstore_account_ref st.sstore a = some ref)
    (hpw : alookup st.sstore ref = some pw) (hne : pw ≠ t)
    (htr : alookup st.transient_sstore ref = some pws) (hmem : t ∈ pws) :
    sign_with_token st a t nt m =
      (.ok (⟨a, m⟩, nt),
        { st with transient_sstore := ainsert st.transient_sstore ref (nt :: pws.erase t) }) := by
  have htest : sstore_test_password st.sstore ref t = .ok false := by
    unfold sstore_test_password
    rw [hpw]
    simp [hne]
  have hch : multi_change_password st.transient_sstore ref t nt =
      .ok (ainsert st.transient_sstore ref (nt :: pws.erase t)) := by
    unfold multi_change_password
    rw [htr]
    simp [hmem]
  have hsg : multi_sign (ainsert st.transient_sstore ref (nt :: pws.erase t)) ref nt m =
      .ok ⟨ref.address, m⟩ := by
    unfold multi_sign
    simp
  unfold sign_with_token
  simp [href, htest, hch, hsg, sstore_account_ref_addr href]

/-- A `sign_with_token` call whose token neither passes the on-disk test
nor is live in the transient store fails and changes nothing. -/
theorem sign_with_token_dead_token (st : ProviderState) (a : Address)
    (ref : StoreAccountRef) (pw t nt : String) (pws : List String) (m : Message)
    (href : sstore_account_ref st.sstore a = some ref)
    (hpw : alookup st.sstore ref = some pw) (hne : pw ≠ t)
    (htr : alookup st.transient_sstore ref = some pws) (hmem : t ∉ pws) :
    sign_with_token st a t nt m = (.error (.SStore .InvalidPassword), st) := by
  have htest : sstore_test_password st.sstore ref t = .ok false := by
    unfold sstore_test_password
    rw [hpw]
    simp [hne]
  have hch : multi_change_password st.transient_sstore ref t nt =
      .error .InvalidPassword := by
    unfold multi_change_password
    rw [htr]
    simp [hmem]
  unfold sign_with_token
  simp [href, htest, hch]

/-- Claim C6 counterexample: the claim quantifies over every token `t`,
but when `t` is the account's real on-disk password (the first-use route),
a successful `sign_with_token(a, t, m)` does NOT invalidate `t`: a later
call presenting the same `t` takes the first-use branch again and
succeeds. -/
theorem token_rotation_counterexample :
    (sign_with_token baseState 1 "pw" "tokB" 0).1 = .ok (⟨1, 0⟩, "tokB") ∧
    (sign_with_token (sign_with_token baseState 1 "pw" "tokB" 0).2 1 "pw" "tokC" 0).1 =
      .ok (⟨1, 0⟩, "tokC") :=
  ⟨rfl, rfl⟩

/-- Claim C6 (amended): for session tokens proper — tokens that fail the
on-disk password test and are the account's single live transient
password — rotation is single-use: after `sign_with_token(a, t, m)`
succeeds returning `(_, nt)`, any later call presenting `t` fails, and
`nt` succeeds exactly once (a call presenting `nt` succeeds and a further
call presenting `nt` fails).  The freshness hypotheses say the randomly
generated tokens differ from the tokens they replace and from the on-disk
password. -/
theorem token_rotation_single_use (st : ProviderState) (a : Address)
    (ref : StoreAccountRef) (pw t nt nt2 : String) (m m2 : Message)
    (href : sstore_account_ref st.sstore a = some ref)
    (hpw : alookup st.sstore ref = some pw) (hne : pw ≠ t)
    (htr : alookup st.transient_sstore ref = some [t])
    (hfresh1 : nt ≠ t) (hfresh2 : pw ≠ nt) (hfresh3 : nt2 ≠ nt) :
    sign_with_token st a t nt m =
      (.ok (⟨a, m⟩, nt),
        { st with transient_sstore := ainsert st.transient_sstore ref [nt] }) ∧
    (∀ nt3 m3,
      (sign_with_token { st with transient_sstore := ainsert st.transient_sstore ref [nt] }
          a t nt3 m3).1 = .error (.SStore .InvalidPassword)) ∧
    sign_with_token { st with transient_sstore := ainsert st.transient_sstore ref [nt] }
        a nt nt2 m2 =
      (.ok (⟨a, m2⟩, nt2),
        { st with transient_sstore :=
            ainsert (ainsert st.transient_sstore ref [nt]) ref [nt2] }) ∧
    (∀ nt4 m4,
      (sign_with_token
          { st with transient_sstore := ainsert (ainsert st.transient_sstore ref [nt]) ref [nt2] }
          a nt nt4 m4).1 = .error (.SStore .InvalidPassword)) := by
  have herase : [t].erase t = [] := by simp
  have herase2 : [nt].erase nt = [] := by simp
  refine ⟨?_, ?_, ?_, ?_⟩
  · have h := sign_with_token_subsequent_ok st a ref pw t nt [t] m href hpw hne htr
      (by simp)
    rw [herase] at h
    exact h
  · intro nt3 m3
    have h := sign_with_token_dead_token
      { st with transient_sstore := ainsert st.transient_sstore ref [nt] }
      a ref pw t nt3 [nt] m3 href hpw hne (by simp) (by simp [Ne.symm hfresh1])
    rw [h]
  · have h := sign_with_token_subsequent_ok
      { st with transient_sstore := ainsert st.transient_sstore ref [nt] }
      a ref pw nt nt2 [nt] m2 href hpw hfresh2 (by simp) (by simp)
    rw [herase2] at h
    exact h
  · intro nt4 m4
    have h := sign_with_token_dead_token
      { st with transient_sstore := ainsert (ainsert st.transient_sstore ref [nt]) ref [nt2] }
      a ref pw nt nt4 [nt2] m4 href hpw hfresh2 (by simp) (by simp [Ne.symm hfresh3])
    rw [h]

/-- Claim C6 witness: concrete rotation run on `tokState` (live token
"tokA"): the call succeeds issuing "tokB"; replaying "tokA" fails;
"tokB" succeeds once and replaying it fails. -/
theorem token_rotation_single_use_witness :
    sign_with_token tokState 1 "tokA" "tokB" 0 =
      (.ok (⟨1, 0⟩, "tokB"),
        { tokState with transient_sstore := ainsert tokState.transient_sstore ref1 ["tokB"] }) ∧
    (sign_with_token
        { tokState with transient_sstore := ainsert tokState.transient_sstore ref1 ["tokB"] }
        1 "tokA" "tokD" 3).1 = .error (.SStore .InvalidPassword) ∧
    sign_with_token
        { tokState with transient_sstore := ainsert tokState.transient_sstore ref1 ["tokB"] }
        1 "tokB" "tokC" 4 =
      (.ok (⟨1, 4⟩, "tokC"),
        { tokState with transient_sstore := ainsert (ainsert tokState.transient_sstore ref1 ["tokB"]) ref1 ["tokC"] }) ∧
    (sign_with_token
        { tokState with transient_sstore := ainsert (ainsert tokState.transient_sstore ref1 ["tokB"]) ref1 ["tokC"] }
        1 "tokB" "tokE" 5).1 = .error (.SStore .InvalidPassword) := by
  have h := token_rotation_single_use tokState 1 ref1 "pw" "tokA" "tokB" "tokC" 0 4
    rfl rfl (by decide) rfl (by decide) (by decide) (by decide)
  exact ⟨h.1, h.2.1 "tokD" 3, h.2.2.1, h.2.2.2 "tokE" 5⟩

/-- Claim C1: evaluation at the failing input.  In the subsequent-use
session state `tokState` (token "tokA" lives only in the transient
store), `sign_with_token` rotates the transient password to the fresh
token and signs with the NEW token, succeeding; the rotation step of
`decrypt_with_token` equally succeeds, but the decryption is then
performed with the OLD token (mod.rs line 472), which the rotation has
just invalidated, so every subsequent-use `decrypt_with_token` call
fails with `InvalidPassword` instead of returning the plaintext paired
with the new token. -/
theorem decrypt_with_token_old_token_bug :
    (sign_with_token tokState 1 "tokA" "tokB" 0).1 = .ok (⟨1, 0⟩, "tokB") ∧
    multi_change_password tokState.transient_sstore ref1 "tokA" "tokB" =
      .ok (ainsert tokState.transient_sstore ref1 ["tokB"]) ∧
    (decrypt_with_token tokState 1 "tokA" "tokB" 0 9).1 =
      .error (.SStore .InvalidPassword) :=
  ⟨rfl, rfl, rfl⟩

end Parity
